import Mathlib

/-!
Verification of the job-queue core of the VoiceCompanionAI repository.

The embedding models `jobs/queue.py` (enqueue, dequeue, complete_job,
fail_job) and one iteration of the background worker loop of
`worker/main.py` (run_loop).  The job store (the `jobs` table) is a list
of `Job` records; timestamps are integers (seconds); JSON dictionaries
are association lists with opaque string values (the queue never inspects
payload or result contents).  Database mutations that `queue.py` performs
through the SQLAlchemy session are modelled as pure functions from store
to store; a `flush` inside an uncommitted transaction versus a `commit`
is modelled explicitly in the worker-loop embedding, where it matters.
-/

namespace VoiceCompanion

/-- JSON object, as far as the queue cares: keys with opaque values. -/
abbrev Dict := List (String × String)

/-- One row of the `jobs` table (`models/job.py`).  Column defaults of the
model: `status="pending"`, `attempts=0`, `max_attempts=3`, lock columns
NULL, `run_after` = creation time, fresh `trace_id`. -/
structure Job where
  id : Nat
  job_type : String
  status : String
  payload : Dict
  result : Option Dict
  error : Option String
  attempts : Nat
  max_attempts : Nat
  locked_by : Option String
  locked_at : Option Int
  run_after : Int
  created_at : Int
  trace_id : Nat
  deriving Repr, DecidableEq

/-- `LOCK_TIMEOUT_SECONDS = 60` from `jobs/queue.py`. -/
def LOCK_TIMEOUT_SECONDS : Int := 60

/-- The record built by `enqueue(db, job_type, payload, max_attempts)`:
a fresh row with the model defaults listed above. -/
def enqueueJob (job_type : String) (payload : Dict) (max_attempts : Nat)
    (now : Int) (freshId freshTrace : Nat) : Job :=
  { id := freshId
    job_type := job_type
    status := "pending"
    payload := payload
    result := none
    error := none
    attempts := 0
    max_attempts := max_attempts
    locked_by := none
    locked_at := none
    run_after := now
    created_at := now
    trace_id := freshTrace }

/-- `enqueue`: inserts the fresh row and returns it. -/
def enqueue (store : List Job) (job_type : String) (payload : Dict)
    (max_attempts : Nat) (now : Int) (freshId freshTrace : Nat) :
    List Job × Job :=
  (store ++ [enqueueJob job_type payload max_attempts now freshId freshTrace],
   enqueueJob job_type payload max_attempts now freshId freshTrace)

/-- The WHERE clause of `dequeue`: `(status = "pending" AND run_after <= now)
OR (status = "processing" AND locked_at <= now - LOCK_TIMEOUT_SECONDS)`.
A NULL `locked_at` makes the SQL comparison unsatisfied. -/
def runnableNow (now : Int) (j : Job) : Bool :=
  (j.status == "pending" && decide (j.run_after ≤ now)) ||
  (j.status == "processing" &&
    (match j.locked_at with
     | some t => decide (t ≤ now - LOCK_TIMEOUT_SECONDS)
     | none => false))

/-- The conditional type filter of `dequeue`: the clause
`Job.job_type.in_(job_types)` is added only under `if job_types:`, so both
`None` and the empty list leave the query unfiltered. -/
def typeAccepted (job_types : Option (List String)) (j : Job) : Bool :=
  match job_types with
  | none => true
  | some ts => if ts.isEmpty then true else ts.contains j.job_type

/-- The row `dequeue` selects, if any: `ORDER BY created_at ASC LIMIT 1`
over the rows matching the WHERE clause and the type filter (ties on
`created_at` are broken arbitrarily by the database; the model keeps the
earliest-listed row). -/
def selectJob (store : List Job) (job_types : Option (List String))
    (now : Int) : Option Job :=
  (store.filter (fun j => runnableNow now j && typeAccepted job_types j)).argmin
    Job.created_at

/-- The mutation `dequeue` applies to the selected row:
`status="processing"`, `locked_by=worker_id`, `locked_at=now`,
`attempts += 1`. -/
def claimUpdate (worker_id : String) (now : Int) (j : Job) : Job :=
  { j with status := "processing"
           locked_by := some worker_id
           locked_at := some now
           attempts := j.attempts + 1 }

/-- Replace the row with the given id (the primary key is unique). -/
def setJob (store : List Job) (jobId : Nat) (row : Job) : List Job :=
  store.map (fun k => if k.id = jobId then row else k)

/-- `dequeue(db, worker_id, job_types)`: claims the next runnable job,
returning the updated store together with the claimed row, or the store
unchanged and `none` when no row matches. -/
def dequeue (store : List Job) (worker_id : String)
    (job_types : Option (List String)) (now : Int) : List Job × Option Job :=
  match selectJob store job_types now with
  | none => (store, none)
  | some j => (setJob store j.id (claimUpdate worker_id now j),
               some (claimUpdate worker_id now j))

/-- Python `result or {}` in `complete_job`: `None` and the empty dict are
falsy, so both store the empty dict; any non-empty dict is kept. -/
def pyOrEmpty (result : Option Dict) : Dict :=
  match result with
  | none => []
  | some d => if d.isEmpty then [] else d

/-- The row values written by `complete_job`'s UPDATE. -/
def completeUpdate (result : Option Dict) (j : Job) : Job :=
  { j with status := "complete"
           result := some (pyOrEmpty result)
           locked_by := none
           locked_at := none }

/-- `complete_job(db, job_id, result)`: unconditional UPDATE of the row
with that id (a second call simply overwrites; no exception is possible). -/
def complete_job (store : List Job) (jobId : Nat) (result : Option Dict) :
    List Job :=
  store.map (fun k => if k.id = jobId then completeUpdate result k else k)

/-- The mutation `fail_job` applies to the job: retry with exponential
backoff while `attempts < max_attempts`, else permanent failure.  The
function is a pure record update: it never sleeps or blocks, the retry
delay exists only as the future `run_after` value. -/
def failUpdate (now : Int) (error : String) (j : Job) : Job :=
  if j.attempts < j.max_attempts then
    { j with status := "pending"
             run_after := now + 2 ^ j.attempts
             locked_by := none
             locked_at := none
             error := some error }
  else
    { j with status := "failed"
             error := some error
             locked_by := none
             locked_at := none }

/-- `fail_job(db, job, error)` as a store operation: apply `failUpdate`
to the row with the job's id. -/
def fail_job (store : List Job) (jobId : Nat) (error : String) (now : Int) :
    List Job :=
  store.map (fun k => if k.id = jobId then failUpdate now error k else k)

/-- A registered handler (`jobs/handlers.py`): gets the payload, returns a
result dict (possibly `None`) or raises, modelled as `Except`. -/
abbrev Handler := Dict → Except String (Option Dict)

/-- A Python value as it flows into `fail_job`'s dynamically typed `job`
parameter: either an actual `Job` ORM object or a bare UUID. -/
inductive PyVal where
  | jobObj (j : Job)
  | uuidVal (u : Nat)
  deriving Repr, DecidableEq

/-- The call `fail_job(db, v, error)` with a dynamically typed first
argument.  The body immediately reads `job.attempts` and
`job.max_attempts`; on a `Job` it performs `failUpdate`, on a UUID Python
raises `AttributeError` (a UUID has no `attempts` attribute). -/
def failJobCall (v : PyVal) (error : String) (now : Int) : Except String Job :=
  match v with
  | PyVal.jobObj j => Except.ok (failUpdate now error j)
  | PyVal.uuidVal _ =>
      Except.error "AttributeError: UUID object has no attribute attempts"

/-- One iteration of `run_loop` in `worker/main.py`, returning the store
as committed at the end of the iteration, plus the error swallowed by the
outer `except` block when the iteration itself raised.

Transaction boundaries, from the source: `dequeue` only flushes its claim
mutation inside the session's open transaction; `run_loop` commits after
`complete_job`, and after `fail_job` on the handler-exception path; any
exception escaping the iteration reaches `get_db`, which rolls the
session back, so nothing of the iteration persists.

Two consequences are modelled faithfully:
* unknown job type: `run_loop` passes `job.id` (a UUID) where `fail_job`
  expects the `Job` object, so `failJobCall` raises `AttributeError`
  before `db.commit()` is reached and the claim is rolled back;
* handler exception: `await db.rollback()` aborts the transaction that
  also held the claim's flushed `status`/`attempts` mutation and expires
  the ORM instance, whose attributes reload from the committed row, so
  `fail_job` updates the pre-claim record and only that update commits. -/
def runIteration (handlers : String → Option Handler) (store : List Job)
    (worker_id : String) (now : Int) : List Job × Option String :=
  match dequeue store worker_id none now with
  | (_, none) => (store, none)
  | (claimed, some job) =>
    match handlers job.job_type with
    | none =>
      match failJobCall (PyVal.uuidVal job.id)
          ("Unknown job type: " ++ job.job_type) now with
      | Except.error e => (store, some e)
      | Except.ok row => (setJob claimed job.id row, none)
    | some h =>
      match h job.payload with
      | Except.ok result => (complete_job claimed job.id result, none)
      | Except.error e => (fail_job store job.id e now, none)

/-- Several worker-loop iterations, one at each listed time. -/
def runIterations (handlers : String → Option Handler) (worker_id : String)
    (store : List Job) (times : List Int) : List Job :=
  times.foldl (fun s t => (runIteration handlers s worker_id t).1) store

/-- The lock-field invariant of the spec's data model: a processing row
holds both lock fields, any other status holds neither. -/
def lockInv (j : Job) : Prop :=
  (j.status = "processing" → j.locked_by ≠ none ∧ j.locked_at ≠ none) ∧
  (j.status = "pending" ∨ j.status = "complete" ∨ j.status = "failed" →
    j.locked_by = none ∧ j.locked_at = none)

instance (j : Job) : Decidable (lockInv j) := by
  unfold lockInv
  infer_instance

/-! Concrete fixtures used to instantiate the theorems below. -/

/-- A freshly enqueued `"ECHO"` job (spec section 8's scenario). -/
def sampleJob : Job := enqueueJob "ECHO" [("text", "hi")] 3 0 1 101

/-- A job of a type whose handler raises on every invocation, enqueued
with `max_attempts = 2`. -/
def jobAlwaysFails : Job := enqueueJob "ALWAYS_FAILS" [] 2 0 1 101

/-- A registry whose `"ALWAYS_FAILS"` handler always raises. -/
def handlersAlwaysFails : String → Option Handler :=
  fun t => if t = "ALWAYS_FAILS" then some (fun _ => Except.error "boom") else none

/-- A job whose type has no entry in the handler registry. -/
def jobUnknown : Job := enqueueJob "UNKNOWN_TYPE" [] 3 0 2 102

/-- The empty handler registry. -/
def handlersNone : String → Option Handler := fun _ => none

/-- A pending job of type `"a"`, eligible at time `0`. -/
def jobTypeA : Job := enqueueJob "a" [] 3 0 5 105

/-! Helper lemmas shared by the claim theorems. -/

theorem pyOrEmpty_some (d : Dict) : pyOrEmpty (some d) = d := by
  cases d <;> rfl

/-- C3: for a job with `attempts < max_attempts`, `fail_job` re-arms it:
`status = "pending"`, `run_after = now + 2 ^ attempts`, both lock fields
cleared, the message stored in `error`.  The operation is a pure record
write — it contains no sleep; the delay exists only as the future
`run_after` value that `dequeue`'s eligibility check enforces. -/
theorem c3_fail_backoff_rearm (j : Job) (now : Int) (msg : String)
    (h : j.attempts < j.max_attempts) :
    (failUpdate now msg j).status = "pending" ∧
    (failUpdate now msg j).run_after = now + 2 ^ j.attempts ∧
    (failUpdate now msg j).locked_by = none ∧
    (failUpdate now msg j).locked_at = none ∧
    (failUpdate now msg j).error = some msg := by
  simp [failUpdate, h]

/-- Witness for C3 at a concrete job. -/
theorem c3_fail_backoff_rearm_witness :
    sampleJob.attempts < sampleJob.max_attempts ∧
    ((failUpdate 7 "oops" sampleJob).status = "pending" ∧
     (failUpdate 7 "oops" sampleJob).run_after = 7 + 2 ^ sampleJob.attempts ∧
     (failUpdate 7 "oops" sampleJob).locked_by = none ∧
     (failUpdate 7 "oops" sampleJob).locked_at = none ∧
     (failUpdate 7 "oops" sampleJob).error = some "oops") :=
  ⟨by decide, c3_fail_backoff_rearm sampleJob 7 "oops" (by decide)⟩

/-- C10: `complete_job` stores `result or ...`, so an absent result is
stored as the empty dict — not NULL — and every dict-valued result is
stored verbatim (the empty dict is falsy in Python, but the fallback is
again the empty dict, so the stored value still equals the input). -/
theorem c10_complete_result_verbatim (j : Job) :
    (completeUpdate none j).result = some [] ∧
    (completeUpdate none j).result ≠ none ∧
    ∀ d : Dict, (completeUpdate (some d) j).result = some d := by
  refine ⟨rfl, by simp [completeUpdate], fun d => ?_⟩
  simp [completeUpdate, pyOrEmpty_some]

/-- C7: completing the same job twice — any first value, dict-valued
second value — leaves `status = "complete"` and the second value stored
(last write wins).  No exception is possible on the second call: the
embedding of `complete_job` is a total unconditional UPDATE on the row
with the given id. -/
theorem c7_complete_twice_last_write (store : List Job) (jobId : Nat)
    (r1 : Option Dict) (d : Dict) (j : Job)
    (hj : j ∈ complete_job (complete_job store jobId r1) jobId (some d))
    (hid : j.id = jobId) :
    j.status = "complete" ∧ j.result = some d := by
  unfold complete_job at hj
  rcases List.mem_map.mp hj with ⟨k, hk, hfk⟩
  by_cases hkid : k.id = jobId
  · rw [if_pos hkid] at hfk
    subst hfk
    exact ⟨rfl, by simp [completeUpdate, pyOrEmpty_some]⟩
  · rw [if_neg hkid] at hfk
    subst hfk
    exact absurd hid hkid

/-- Witness for C7 at a concrete store. -/
theorem c7_complete_twice_last_write_witness :
    (completeUpdate (some [("k", "v")]) (completeUpdate none sampleJob) ∈
      complete_job (complete_job [sampleJob] 1 none) 1 (some [("k", "v")])) ∧
    (completeUpdate (some [("k", "v")]) (completeUpdate none sampleJob)).id = 1 ∧
    ((completeUpdate (some [("k", "v")]) (completeUpdate none sampleJob)).status
        = "complete" ∧
     (completeUpdate (some [("k", "v")]) (completeUpdate none sampleJob)).result
        = some [("k", "v")]) :=
  ⟨by decide, by decide,
   c7_complete_twice_last_write [sampleJob] 1 none [("k", "v")] _ (by decide)
     (by decide)⟩

/-- C2, evidence of the divergence: a job with `max_attempts = 2` whose
handler raises on every invocation.  After two worker-loop cycles that
both claim the job and both see the handler raise, the committed row is
still `"pending"` with `attempts = 0` — not `"failed"` with
`attempts = 2` as the spec requires.  The claim that `dequeue` flushed
is undone by the `db.rollback()` that `run_loop` issues before calling
`fail_job`, so the `attempts` increment never commits and the retry
budget is never consumed. -/
theorem c2_rollback_discards_attempts :
    (runIterations handlersAlwaysFails "w" [jobAlwaysFails] [0, 10]).map
      (fun j => (j.status, j.attempts, j.error)) =
      [("pending", 0, some "boom")] ∧
    ¬ (runIterations handlersAlwaysFails "w" [jobAlwaysFails] [0, 10]).map
      (fun j => (j.status, j.attempts)) = [("failed", 2)] := by
  exact ⟨by decide, by decide⟩

/-- C8, evidence of the divergence: a claimed job whose type has no
registry entry.  `run_loop` passes `job.id` — the UUID — where
`fail_job` expects the Job object, so the branch raises
`AttributeError` instead of failing the job: the iteration commits
nothing (the flushed claim is rolled back), no error is recorded, and
every further iteration repeats the same cycle, so the job loops
instead of moving toward terminal failure. -/
theorem c8_unknown_type_crashes_fail_path :
    runIteration handlersNone [jobUnknown] "w" 0 =
      ([jobUnknown], some "AttributeError: UUID object has no attribute attempts") ∧
    runIterations handlersNone "w" [jobUnknown] [0, 1, 2, 3] = [jobUnknown] ∧
    jobUnknown.status = "pending" ∧ jobUnknown.error = none := by
  exact ⟨by decide, by decide, rfl, rfl⟩

/-- C4 counterexample: the accepted-types argument is supplied as the
empty list, yet `dequeue` returns a job — whose type is not a member of
the supplied list — because `if job_types:` treats the empty list like
`None` and skips the filter entirely. -/
theorem c4_empty_type_list_not_restricted :
    (dequeue [jobTypeA] "w" (some []) 0).2 = some (claimUpdate "w" 0 jobTypeA) ∧
    (claimUpdate "w" 0 jobTypeA).job_type ∉ ([] : List String) := by
  exact ⟨by decide, by simp⟩

theorem lockInv_enqueueJob (jt : String) (p : Dict) (m : Nat) (now : Int)
    (fid ftr : Nat) : lockInv (enqueueJob jt p m now fid ftr) := by
  refine ⟨fun h => ?_, fun _ => ⟨rfl, rfl⟩⟩
  simp [enqueueJob] at h

theorem lockInv_claimUpdate (w : String) (t : Int) (j : Job) :
    lockInv (claimUpdate w t j) := by
  refine ⟨fun _ => ⟨by simp [claimUpdate], by simp [claimUpdate]⟩, fun h => ?_⟩
  rcases h with h | h | h <;> simp [claimUpdate] at h

theorem lockInv_completeUpdate (r : Option Dict) (j : Job) :
    lockInv (completeUpdate r j) := by
  refine ⟨fun h => ?_, fun _ => ⟨rfl, rfl⟩⟩
  simp [completeUpdate] at h

theorem lockInv_failUpdate (t : Int) (e : String) (j : Job) :
    lockInv (failUpdate t e j) := by
  unfold failUpdate
  split
  · refine ⟨fun h => ?_, fun _ => ⟨rfl, rfl⟩⟩
    simp at h
  · refine ⟨fun h => ?_, fun _ => ⟨rfl, rfl⟩⟩
    simp at h

/-- C6: the lock-field invariant — `"processing"` holds both lock
fields, every other status holds neither — is established by `enqueue`
(the fresh row is `"pending"` with NULL locks) and preserved by every
core operation: claim, complete and fail. -/
theorem c6_lock_field_invariant (store : List Job) (jt : String) (p : Dict)
    (m : Nat) (now : Int) (fid ftr : Nat) (w : String)
    (jts : Option (List String)) (jobId : Nat) (r : Option Dict) (e : String)
    (hstore : ∀ j ∈ store, lockInv j) :
    lockInv (enqueueJob jt p m now fid ftr) ∧
    (∀ j ∈ (enqueue store jt p m now fid ftr).1, lockInv j) ∧
    (∀ j ∈ (dequeue store w jts now).1, lockInv j) ∧
    (∀ jr, (dequeue store w jts now).2 = some jr → lockInv jr) ∧
    (∀ j ∈ complete_job store jobId r, lockInv j) ∧
    (∀ j ∈ fail_job store jobId e now, lockInv j) := by
  refine ⟨lockInv_enqueueJob jt p m now fid ftr, ?_, ?_, ?_, ?_, ?_⟩
  · intro j hj
    rcases List.mem_append.mp hj with h | h
    · exact hstore j h
    · exact (List.mem_singleton.mp h) ▸ lockInv_enqueueJob jt p m now fid ftr
  · intro j hj
    unfold dequeue at hj
    cases hsel : selectJob store jts now with
    | none =>
      rw [hsel] at hj
      exact hstore j hj
    | some j0 =>
      rw [hsel] at hj
      have hj2 : j ∈ setJob store j0.id (claimUpdate w now j0) := hj
      unfold setJob at hj2
      rcases List.mem_map.mp hj2 with ⟨k, hk, hfk⟩
      by_cases hkid : k.id = j0.id
      · rw [if_pos hkid] at hfk
        subst hfk
        exact lockInv_claimUpdate w now j0
      · rw [if_neg hkid] at hfk
        subst hfk
        exact hstore k hk
  · intro jr hjr
    unfold dequeue at hjr
    cases hsel : selectJob store jts now with
    | none =>
      rw [hsel] at hjr
      simp at hjr
    | some j0 =>
      rw [hsel] at hjr
      have hjr2 : claimUpdate w now j0 = jr := by simpa using hjr
      exact hjr2 ▸ lockInv_claimUpdate w now j0
  · intro j hj
    unfold complete_job at hj
    rcases List.mem_map.mp hj with ⟨k, hk, hfk⟩
    by_cases hkid : k.id = jobId
    · rw [if_pos hkid] at hfk
      subst hfk
      exact lockInv_completeUpdate r k
    · rw [if_neg hkid] at hfk
      subst hfk
      exact hstore k hk
  · intro j hj
    unfold fail_job at hj
    rcases List.mem_map.mp hj with ⟨k, hk, hfk⟩
    by_cases hkid : k.id = jobId
    · rw [if_pos hkid] at hfk
      subst hfk
      exact lockInv_failUpdate now e k
    · rw [if_neg hkid] at hfk
      subst hfk
      exact hstore k hk

/-- Witness for C6 at a concrete one-job store. -/
theorem c6_lock_field_invariant_witness :
    (∀ j ∈ [sampleJob], lockInv j) ∧
    lockInv (enqueueJob "ECHO" [("text", "hi")] 3 0 1 101) ∧
    lockInv (claimUpdate "w" 0 sampleJob) :=
  ⟨by decide,
   (c6_lock_field_invariant [sampleJob] "ECHO" [("text", "hi")] 3 0 1 101 "w"
      none 1 none "e" (by decide)).1,
   (c6_lock_field_invariant [sampleJob] "ECHO" [("text", "hi")] 3 0 1 101 "w"
      none 1 none "e" (by decide)).2.2.2.1 (claimUpdate "w" 0 sampleJob)
     (by decide)⟩

/-- C9: `attempts` is written only by a successful claim, which adds
exactly one; `enqueue` creates the row with `attempts = 0`; neither
`complete_job` nor `fail_job` touches `attempts`, `payload`, `job_type`
or `trace_id`; an unsuccessful `dequeue` leaves the store unchanged and
a successful one leaves every non-claimed row unchanged. -/
theorem c9_attempts_frame (jt : String) (p : Dict) (m : Nat) (now t : Int)
    (fid ftr : Nat) (w : String) (j : Job) (r : Option Dict) (e : String)
    (store : List Job) (jts : Option (List String)) :
    (enqueueJob jt p m now fid ftr).attempts = 0 ∧
    (claimUpdate w t j).attempts = j.attempts + 1 ∧
    ((completeUpdate r j).attempts = j.attempts ∧
     (completeUpdate r j).payload = j.payload ∧
     (completeUpdate r j).job_type = j.job_type ∧
     (completeUpdate r j).trace_id = j.trace_id) ∧
    ((failUpdate t e j).attempts = j.attempts ∧
     (failUpdate t e j).payload = j.payload ∧
     (failUpdate t e j).job_type = j.job_type ∧
     (failUpdate t e j).trace_id = j.trace_id) ∧
    ((dequeue store w jts t).2 = none → (dequeue store w jts t).1 = store) ∧
    (∀ jr, (dequeue store w jts t).2 = some jr →
      ∀ k ∈ store, k.id ≠ jr.id → k ∈ (dequeue store w jts t).1) := by
  refine ⟨rfl, rfl, ⟨rfl, rfl, rfl, rfl⟩, ?_, ?_, ?_⟩
  · unfold failUpdate
    split
    · exact ⟨rfl, rfl, rfl, rfl⟩
    · exact ⟨rfl, rfl, rfl, rfl⟩
  · intro hnone
    unfold dequeue at hnone ⊢
    cases hsel : selectJob store jts t with
    | none => rfl
    | some j0 =>
      rw [hsel] at hnone
      simp at hnone
  · intro jr hjr k hk hkne
    unfold dequeue at hjr ⊢
    cases hsel : selectJob store jts t with
    | none =>
      rw [hsel] at hjr
      simp at hjr
    | some j0 =>
      rw [hsel] at hjr
      have hjr2 : claimUpdate w t j0 = jr := by simpa using hjr
      have hjid : jr.id = j0.id := by
        rw [← hjr2]
        rfl
      have hkid : k.id ≠ j0.id := by rw [← hjid]; exact hkne
      show k ∈ setJob store j0.id (claimUpdate w t j0)
      unfold setJob
      refine List.mem_map.mpr ⟨k, hk, ?_⟩
      simp [hkid]

/-- Witness for C9: a two-job store where the claim picks the first row
and leaves the second untouched. -/
theorem c9_attempts_frame_witness :
    (enqueueJob "ECHO" [("text", "hi")] 3 0 1 101).attempts = 0 ∧
    (dequeue [sampleJob, jobTypeA] "w" none 0).2 =
      some (claimUpdate "w" 0 sampleJob) ∧
    jobTypeA ∈ (dequeue [sampleJob, jobTypeA] "w" none 0).1 :=
  ⟨(c9_attempts_frame "ECHO" [("text", "hi")] 3 0 0 1 101 "w" sampleJob none
      "e" [sampleJob, jobTypeA] none).1,
   by decide,
   (c9_attempts_frame "ECHO" [("text", "hi")] 3 0 0 1 101 "w" sampleJob none
      "e" [sampleJob, jobTypeA] none).2.2.2.2.2 (claimUpdate "w" 0 sampleJob)
     (by decide) jobTypeA (by decide) (by decide)⟩

/-- C5: a job claimed by worker A whose lease then ages past the
60-second timeout, with neither `complete_job` nor `fail_job` run on it,
is claimable again: B's `dequeue` succeeds on it, after which `attempts`
has grown by exactly 2 over its pre-A value and `locked_by` is B. -/
theorem c5_stale_lease_reclaim (j : Job) (wA wB : String) (t0 t1 : Int)
    (hst : j.status = "pending") (hra : j.run_after ≤ t0)
    (hlease : t0 + LOCK_TIMEOUT_SECONDS ≤ t1) :
    (dequeue [j] wA none t0).2 = some (claimUpdate wA t0 j) ∧
    (dequeue (dequeue [j] wA none t0).1 wB none t1).2 =
      some (claimUpdate wB t1 (claimUpdate wA t0 j)) ∧
    (claimUpdate wB t1 (claimUpdate wA t0 j)).attempts = j.attempts + 2 ∧
    (claimUpdate wB t1 (claimUpdate wA t0 j)).locked_by = some wB := by
  have hl60 : t0 ≤ t1 - 60 := by
    have h60 : t0 + 60 ≤ t1 := by simpa [LOCK_TIMEOUT_SECONDS] using hlease
    omega
  have h1 : runnableNow t0 j = true := by
    simp [runnableNow, hst, hra]
  have hfil1 : List.filter (fun x => runnableNow t0 x && typeAccepted none x) [j]
      = [j] := by
    simp [h1, typeAccepted]
  have hsel1 : selectJob [j] none t0 = some j := by
    rw [selectJob, hfil1]
    rfl
  have hd1 : dequeue [j] wA none t0 =
      ([claimUpdate wA t0 j], some (claimUpdate wA t0 j)) := by
    unfold dequeue
    rw [hsel1]
    simp [setJob]
  have h2 : runnableNow t1 (claimUpdate wA t0 j) = true := by
    simp [runnableNow, claimUpdate, LOCK_TIMEOUT_SECONDS, hl60]
  have hfil2 : List.filter (fun x => runnableNow t1 x && typeAccepted none x)
      [claimUpdate wA t0 j] = [claimUpdate wA t0 j] := by
    simp [h2, typeAccepted]
  have hsel2 : selectJob [claimUpdate wA t0 j] none t1 =
      some (claimUpdate wA t0 j) := by
    rw [selectJob, hfil2]
    rfl
  have hd2 : dequeue [claimUpdate wA t0 j] wB none t1 =
      ([claimUpdate wB t1 (claimUpdate wA t0 j)],
       some (claimUpdate wB t1 (claimUpdate wA t0 j))) := by
    unfold dequeue
    rw [hsel2]
    simp [setJob]
  refine ⟨by rw [hd1], ?_, ?_, rfl⟩
  · rw [hd1]
    show (dequeue [claimUpdate wA t0 j] wB none t1).2 = _
    rw [hd2]
  · show j.attempts + 1 + 1 = j.attempts + 2
    omega

/-- Witness for C5 at a concrete job and times 0 and 60. -/
theorem c5_stale_lease_reclaim_witness :
    (sampleJob.status = "pending" ∧ sampleJob.run_after ≤ 0 ∧
      0 + LOCK_TIMEOUT_SECONDS ≤ 60) ∧
    ((dequeue [sampleJob] "A" none 0).2 = some (claimUpdate "A" 0 sampleJob) ∧
     (dequeue (dequeue [sampleJob] "A" none 0).1 "B" none 60).2 =
       some (claimUpdate "B" 60 (claimUpdate "A" 0 sampleJob)) ∧
     (claimUpdate "B" 60 (claimUpdate "A" 0 sampleJob)).attempts =
       sampleJob.attempts + 2 ∧
     (claimUpdate "B" 60 (claimUpdate "A" 0 sampleJob)).locked_by = some "B") :=
  ⟨⟨rfl, by decide, by decide⟩,
   c5_stale_lease_reclaim sampleJob "A" "B" 0 60 rfl (by decide) (by decide)⟩

/-- C4 (amended): `dequeue` selects a row of earliest `created_at`
among rows satisfying pending-and-due or stale-processing, restricted
to the accepted job types when a non-empty list of them is supplied (an
empty list, like `None`, imposes no restriction, because of the falsy
`if job_types:` guard); it returns `none` — not an error — exactly when
no such row exists, and on success the claimed row has
`status = "processing"`, `locked_by` = the caller's identity,
`locked_at = now`, and `attempts` incremented by exactly one. -/
theorem c4_dequeue_selection (store : List Job) (w : String)
    (jts : Option (List String)) (now : Int) :
    ((dequeue store w jts now).2 = none ↔
      ∀ j ∈ store, (runnableNow now j && typeAccepted jts j) = false) ∧
    (∀ jr, (dequeue store w jts now).2 = some jr →
      ∃ j ∈ store, runnableNow now j = true ∧ typeAccepted jts j = true ∧
        (∀ k ∈ store, runnableNow now k = true → typeAccepted jts k = true →
          j.created_at ≤ k.created_at) ∧
        jr = claimUpdate w now j ∧
        jr.status = "processing" ∧ jr.locked_by = some w ∧
        jr.locked_at = some now ∧ jr.attempts = j.attempts + 1 ∧
        ∀ ts, jts = some ts → ts ≠ [] → jr.job_type ∈ ts) := by
  unfold dequeue selectJob
  cases hsel : (store.filter
      (fun j => runnableNow now j && typeAccepted jts j)).argmin Job.created_at with
  | none =>
    have hfil : store.filter (fun j => runnableNow now j && typeAccepted jts j)
        = [] := List.argmin_eq_none.mp hsel
    refine ⟨⟨fun _ j hjmem => ?_, fun _ => rfl⟩, fun jr hjr => ?_⟩
    · have hnp := List.filter_eq_nil_iff.mp hfil j hjmem
      simpa using hnp
    · simp at hjr
  | some j0 =>
    have hmem0 : j0 ∈ store.filter
        (fun j => runnableNow now j && typeAccepted jts j) :=
      List.argmin_mem (Option.mem_def.mpr hsel)
    have hj0 := List.mem_filter.mp hmem0
    have hand : runnableNow now j0 = true ∧ typeAccepted jts j0 = true := by
      have h2 := hj0.2
      rw [Bool.and_eq_true] at h2
      exact h2
    have hrun : runnableNow now j0 = true := hand.1
    have htyp : typeAccepted jts j0 = true := hand.2
    refine ⟨⟨fun hne => ?_, fun hall => ?_⟩, fun jr hjr => ?_⟩
    · simp at hne
    · exact absurd (hall j0 hj0.1) (by simp [hj0.2])
    · have hjr2 : claimUpdate w now j0 = jr := by simpa using hjr
      subst hjr2
      refine ⟨j0, hj0.1, hrun, htyp, ?_, rfl, rfl, rfl, rfl, rfl, ?_⟩
      · intro k hk hrk htk
        exact List.le_of_mem_argmin
          (List.mem_filter.mpr ⟨hk, by simp [hrk, htk]⟩)
          (Option.mem_def.mpr hsel)
      · intro ts hts htsne
        rw [hts] at htyp
        cases ts with
        | nil => exact absurd rfl htsne
        | cons x xs =>
          have hcon : (x :: xs).contains j0.job_type = true := by
            simpa [typeAccepted] using htyp
          show j0.job_type ∈ x :: xs
          simpa using hcon

/-- Witness for C4 at a two-job store with a non-empty type filter. -/
theorem c4_dequeue_selection_witness :
    (dequeue [jobTypeA, sampleJob] "w" (some ["a"]) 0).2 =
      some (claimUpdate "w" 0 jobTypeA) ∧
    (claimUpdate "w" 0 jobTypeA).job_type ∈ ["a"] ∧
    (claimUpdate "w" 0 jobTypeA).attempts = jobTypeA.attempts + 1 := by
  have h := (c4_dequeue_selection [jobTypeA, sampleJob] "w" (some ["a"]) 0).2
      (claimUpdate "w" 0 jobTypeA) (by decide)
  rcases h with ⟨j, hj, hrun, htyp, hmin, hjr, hstatus, hlb, hla, hat, hty⟩
  exact ⟨by decide, hty ["a"] rfl (by decide), by decide⟩

end VoiceCompanion
